import Mathlib

/-!
Verification development for the talkmybio-admin dashboard.

The definitions below are a shallow embedding of the TypeScript source:
the preference broadcast flows of AIPreferences.tsx and
StoryPreferences.tsx, the authentication error mapping and admin gate of
AuthForm.tsx and App.tsx, and the call-history pagination of
CallHistory.tsx.  Network effects are modelled by an explicit environment
of failure flags and by traces of emitted operation events.
-/

namespace AdminDash

/-- Voice descriptor, mirroring the Voice shape of
AIPreferences.tsx lines 8-16. -/
structure Voice where
  voice_id : String
  voice_name : String
  provider : String
  accent : String
  gender : String
  age : String
  preview_audio_url : String
deriving DecidableEq

/-- Fixed default voice, AIPreferences.tsx lines 18-26. -/
def DEFAULT_VOICE : Voice :=
  { voice_id := "play-Cimo"
    voice_name := "Cimo"
    provider := "play"
    accent := "American"
    gender := "female"
    age := "Middle Aged"
    preview_audio_url := "https://retell-utils-public.s3.us-west-2.amazonaws.com/play-Cimo.mp3" }

/-- Conversation style enum, AIPreferences.tsx line 31. -/
inductive ConversationStyle
  | casual
  | balanced
  | reflective
deriving DecidableEq

/-- Follow-up intensity enum, AIPreferences.tsx line 32. -/
inductive FollowUpIntensity
  | fewer
  | balanced
  | more
deriving DecidableEq

/-- The aiPreferences block written by handleSaveChanges,
AIPreferences.tsx lines 153-157. -/
structure AIPrefs where
  voice : Voice
  followUpIntensity : FollowUpIntensity
  conversationStyle : ConversationStyle
deriving DecidableEq

/-- Narrative style enum, StoryPreferences.tsx line 8. -/
inductive NarrativeStyle
  | firstPerson
  | thirdPerson
deriving DecidableEq

/-- Story length enum, StoryPreferences.tsx line 9. -/
inductive LengthPreference
  | shorter
  | balanced
  | longer
deriving DecidableEq

/-- Detail richness enum, StoryPreferences.tsx line 10. -/
inductive DetailRichness
  | fewer
  | balanced
  | more
deriving DecidableEq

/-- The storyPreferences block written by handleSaveChanges,
StoryPreferences.tsx lines 46-50. -/
structure StoryPrefs where
  narrativeStyle : NarrativeStyle
  lengthPreference : LengthPreference
  detailRichness : DetailRichness
deriving DecidableEq

/-- Administrator document in the admins collection.  Timestamps are
modelled as abstract Nat counters (serverTimestamp values compared only
by ordering). -/
structure AdminRecord where
  name : String
  email : String
  aiPreferences : Option AIPrefs
  storyPreferences : Option StoryPrefs
  updatedAt : Nat
deriving DecidableEq

/-- User mirror document in the users collection.  agentIds is Option so
that an absent field (which fails the Array.isArray guard of
AIPreferences.tsx line 127) is distinguished from an empty list. -/
structure UserRecord where
  uid : String
  agentIds : Option (List String)
  aiPreferences : Option AIPrefs
  storyPreferences : Option StoryPrefs
  updatedAt : Nat
deriving DecidableEq

/-- The document store visible to the two save flows: one administrator
record and the enumerated user mirror records. -/
structure Store where
  admin : AdminRecord
  users : List UserRecord
deriving DecidableEq

/-- Failure environment: which network operations fail during one run of
a save flow.  agentCallFails gives the outcome of the remote-provider
update for a given agent id. -/
structure Env where
  adminWriteFails : Bool
  enumerateFails : Bool
  agentCallFails : String → Bool
  batchCommitFails : Bool

/-- Operation events emitted by a save flow, in issue order: the
updateDoc on the admin record, the getDocs enumeration of users, one
remote agent.update call per agent id (carrying the voice id payload),
and the writeBatch commit over n user records. -/
inductive Event
  | adminWrite
  | enumerateUsers
  | agentCall (agentId : String) (voiceId : String)
  | batchWrite (n : Nat)
deriving DecidableEq

/-- Outcome surfaced to the operator via toast. -/
inductive Notice
  | success (msg : String)
  | failure (msg : String)
deriving DecidableEq

/-- Result of one run of a save flow: the resulting store, the trace of
operations attempted, the collected failed agent ids, and the surfaced
notice. -/
structure SaveResult where
  store : Store
  trace : List Event
  failedAgentIds : List String
  notice : Notice
deriving DecidableEq

/-- Error toast of the AI flow, AIPreferences.tsx line 188. -/
def aiErrorMsg : String := "Failed to update some preferences. Please try again."

/-- Success toast of the AI flow, AIPreferences.tsx line 185. -/
def aiSuccessMsg : String := "Updated AI preferences successfully"

/-- Error toast of the story flow, StoryPreferences.tsx line 71. -/
def storyErrorMsg : String := "Failed to update story preferences"

/-- Success toast of the story flow, StoryPreferences.tsx line 68. -/
def storySuccessMsg : String := "Updated story preferences for all users successfully"

/-- Fan-out over one user record, AIPreferences.tsx lines 125-138: when
agentIds is a present array, one agent.update call is issued per id
(userData.agentIds.map); each failing call has its id pushed onto
failedUpdates by the per-call catch, so failures never propagate.
Returns the failed ids and the issued call events.  The push order of
failedUpdates is completion order in the source; it is modelled as list
order here, and the claims use it only up to membership. -/
def fanOutUser (env : Env) (voiceId : String) (u : UserRecord) :
    List String × List Event :=
  match u.agentIds with
  | some ids =>
      (ids.filter (fun a => env.agentCallFails a),
       ids.map (fun a => Event.agentCall a voiceId))
  | none => ([], [])

/-- updateRetellAgents, AIPreferences.tsx lines 121-144: iterates every
user document of the snapshot, fanning out over each one and waiting for
every call to settle; collected failures are only logged. -/
def updateRetellAgents (env : Env) (voiceId : String) :
    List UserRecord → List String × List Event
  | [] => ([], [])
  | u :: rest =>
      let r := fanOutUser env voiceId u
      let rs := updateRetellAgents env voiceId rest
      (r.1 ++ rs.1, r.2 ++ rs.2)

/-- handleSaveChanges of AIPreferences.tsx lines 146-192, taking the
fully specified inputs as arguments (the null guard of line 147 returns
before any effect, so the flow is modelled only for present values).
Order of effects: updateDoc on admins/uid, getDocs users,
updateRetellAgents (which never throws, since every per-call error is
caught inside it), then an atomic writeBatch over every user document.
A failing admin write jumps to the catch before anything else is
attempted; a writeBatch with zero mutations commits without a network
round trip and cannot fail. -/
def handleSaveChanges (env : Env) (store : Store) (v : Voice)
    (cs : ConversationStyle) (fui : FollowUpIntensity) (now : Nat) :
    SaveResult :=
  if env.adminWriteFails then
    { store := store
      trace := [Event.adminWrite]
      failedAgentIds := []
      notice := Notice.failure aiErrorMsg }
  else
    let prefs : AIPrefs :=
      { voice := v, followUpIntensity := fui, conversationStyle := cs }
    let store1 : Store :=
      { store with
        admin := { store.admin with aiPreferences := some prefs, updatedAt := now } }
    if env.enumerateFails then
      { store := store1
        trace := [Event.adminWrite, Event.enumerateUsers]
        failedAgentIds := []
        notice := Notice.failure aiErrorMsg }
    else
      let users := store1.users
      let fan := updateRetellAgents env v.voice_id users
      let preTrace :=
        [Event.adminWrite, Event.enumerateUsers] ++ fan.2 ++
          [Event.batchWrite users.length]
      if env.batchCommitFails && !users.isEmpty then
        { store := store1
          trace := preTrace
          failedAgentIds := fan.1
          notice := Notice.failure aiErrorMsg }
      else
        { store :=
            { store1 with
              users := users.map (fun u =>
                { u with aiPreferences := some prefs, updatedAt := now }) }
          trace := preTrace
          failedAgentIds := fan.1
          notice := Notice.success aiSuccessMsg }

/-- handleSaveChanges of StoryPreferences.tsx lines 39-75: same shape as
the AI flow, with no remote fan-out step.  updateDoc on admins/uid, then
getDocs users, then the atomic writeBatch over every user document. -/
def storySaveChanges (env : Env) (store : Store) (p : StoryPrefs)
    (now : Nat) : SaveResult :=
  if env.adminWriteFails then
    { store := store
      trace := [Event.adminWrite]
      failedAgentIds := []
      notice := Notice.failure storyErrorMsg }
  else
    let store1 : Store :=
      { store with
        admin := { store.admin with storyPreferences := some p, updatedAt := now } }
    if env.enumerateFails then
      { store := store1
        trace := [Event.adminWrite, Event.enumerateUsers]
        failedAgentIds := []
        notice := Notice.failure storyErrorMsg }
    else
      let users := store1.users
      if env.batchCommitFails && !users.isEmpty then
        { store := store1
          trace := [Event.adminWrite, Event.enumerateUsers,
                    Event.batchWrite users.length]
          failedAgentIds := []
          notice := Notice.failure storyErrorMsg }
      else
        { store :=
            { store1 with
              users := users.map (fun u =>
                { u with storyPreferences := some p, updatedAt := now }) }
          trace := [Event.adminWrite, Event.enumerateUsers,
                    Event.batchWrite users.length]
          failedAgentIds := []
          notice := Notice.success storySuccessMsg }

/-- Read path of fetchData over the admin document, AIPreferences.tsx
lines 60-72: the stored aiPreferences block when present, otherwise the
fixed defaults. -/
def fetchAIPrefs (a : AdminRecord) : AIPrefs :=
  match a.aiPreferences with
  | some p => p
  | none =>
      { voice := DEFAULT_VOICE
        followUpIntensity := FollowUpIntensity.balanced
        conversationStyle := ConversationStyle.balanced }

/-- Static code-to-text table of handleAuthError, AuthForm.tsx
lines 27-37. -/
def errorMessages : List (String × String) :=
  [("auth/invalid-credential",
    "Invalid email or password. Please check your credentials and try again."),
   ("auth/wrong-password",
    "Invalid email or password. Please check your credentials and try again."),
   ("auth/user-not-found", "No admin account found with this email."),
   ("auth/invalid-email", "Please enter a valid email address."),
   ("auth/network-request-failed", "Network error. Please check your connection."),
   ("auth/too-many-requests", "Too many attempts. Please try again later."),
   ("auth/operation-not-allowed", "This sign-in method is not enabled."),
   ("auth/email-already-in-use", "An admin account with this email already exists."),
   ("auth/weak-password", "Password should be at least 6 characters long.")]

/-- An authentication failure as handleAuthError receives it: a possibly
absent error code (a plain Error carries none) and the error message
string (possibly empty). -/
structure AuthFailure where
  code : Option String
  message : String
deriving DecidableEq

/-- JavaScript disjunction on strings: the left operand unless it is
falsy (empty), else the right operand. -/
def jsOr (a b : String) : String :=
  if a = "" then b else a

/-- Table lookup errorMessages[code] of AuthForm.tsx line 40: none when
the code is absent or not a key of the table. -/
def mappedText (e : AuthFailure) : Option String :=
  match e.code with
  | some c => errorMessages.lookup c
  | none => none

/-- handleAuthError, AuthForm.tsx lines 24-42: message is the table text
when the code maps, else error.message; the surfaced toast falls back to
a fixed generic text when that message is falsy. -/
def handleAuthError (e : AuthFailure) : String :=
  let message :=
    match mappedText e with
    | some m => m
    | none => e.message
  jsOr message "An error occurred during sign in. Please try again."

/-- Result of the sign-in submit handler: the authenticated user after
the handler (none when signed out), the navigation target, and the
surfaced toast. -/
structure SignInResult where
  currentUser : Option String
  navigatedTo : Option String
  notice : Notice
deriving DecidableEq

/-- Sign-in branch of handleSubmit, AuthForm.tsx lines 64-77, for a uid
whose credentials authenticated: adminDocs is the set of document ids in
the admins collection.  When admins/uid does not exist the user is
signed out, an access-denied error is surfaced and the handler returns
without navigating; otherwise it navigates to /ai-preferences. -/
def signInSubmit (adminDocs : List String) (uid : String) : SignInResult :=
  if uid ∈ adminDocs then
    { currentUser := some uid
      navigatedTo := some "/ai-preferences"
      notice := Notice.success "Signed in successfully!" }
  else
    { currentUser := none
      navigatedTo := none
      notice := Notice.failure "Access denied. Admin privileges required." }

/-- Administrator identity data held by the app shell (types/admin). -/
structure AdminData where
  name : String
  email : String
deriving DecidableEq

/-- App shell state: the ambient authenticated user and the fetched
adminData, App.tsx lines 17-18. -/
structure AppState where
  user : Option String
  adminData : Option AdminData
deriving DecidableEq

/-- checkAdminStatus effect of App.tsx lines 21-46, run to completion:
with no user it returns; with a user it fetches admins/uid, storing the
data when the document exists and signing the user out otherwise. -/
def checkAdminStatus (adminDoc : String → Option AdminData)
    (s : AppState) : AppState :=
  match s.user with
  | none => s
  | some uid =>
      match adminDoc uid with
      | some a => { s with adminData := some a }
      | none => { user := none, adminData := s.adminData }

/-- Render guard of App.tsx line 56: the protected shell renders exactly
when a user is signed in and adminData is present. -/
def rendersProtected (s : AppState) : Bool :=
  s.user.isSome && s.adminData.isSome

/-- Views reachable from the router. -/
inductive View
  | signInView
  | signUpView
  | protectedShell (path : String)
deriving DecidableEq

/-- Route resolution of App.tsx lines 56-94: outside the protected
state only /signin and /signup resolve to their forms and every other
path navigates to /signin; in the protected state the shell renders. -/
def resolveRoute (s : AppState) (path : String) : View :=
  if rendersProtected s then
    View.protectedShell path
  else if path = "/signin" then
    View.signInView
  else if path = "/signup" then
    View.signUpView
  else
    View.signInView

/-- Page size constant, CallHistory.tsx line 38. -/
def CALLS_PER_PAGE : Nat := 20

/-- Raw call document of the call_history collection group, with the
fields the browser reads: document id, possibly missing callId field,
the owning users document id from the document path (possibly absent),
and the two timestamps as abstract Nat instants. -/
structure CallDoc where
  id : String
  callIdField : Option String
  ownerUid : Option String
  lastUpdated : Nat
  creationTime : Nat
deriving DecidableEq

/-- Owner email resolution of CallHistory.tsx lines 66-77: Unknown when
the owner id is absent, the users document is missing or unreadable, or
its email field is falsy. -/
def lookupEmail (emails : List (String × String)) (owner : Option String) :
    String :=
  match owner with
  | none => "Unknown"
  | some uid =>
      match emails.lookup uid with
      | some e => jsOr e "Unknown"
      | none => "Unknown"

/-- Denormalized call entry as displayed, CallHistory.tsx lines 82-98
(the fields the pagination claims depend on). -/
structure CallEntry where
  id : String
  callId : String
  lastUpdated : Nat
  creationTime : Nat
  userEmail : String
deriving DecidableEq

/-- Entry construction of CallHistory.tsx lines 62-99: callId falls back
to the document id when the field is missing or falsy. -/
def buildEntry (emails : List (String × String)) (d : CallDoc) : CallEntry :=
  { id := d.id
    callId := jsOr (d.callIdField.getD "") d.id
    lastUpdated := d.lastUpdated
    creationTime := d.creationTime
    userEmail := lookupEmail emails d.ownerUid }

/-- Comparator of CallHistory.tsx lines 103-105: newest (largest
lastUpdated) first. -/
def newerFirst (a b : CallEntry) : Prop :=
  b.lastUpdated ≤ a.lastUpdated

instance : DecidableRel newerFirst :=
  fun a b => inferInstanceAs (Decidable (b.lastUpdated ≤ a.lastUpdated))

instance : IsTotal CallEntry newerFirst :=
  ⟨fun a b => Nat.le_total b.lastUpdated a.lastUpdated⟩

instance : IsTrans CallEntry newerFirst :=
  ⟨fun _ _ _ h1 h2 => le_trans h2 h1⟩

/-- Descending sort by lastUpdated of CallHistory.tsx lines 103-105. -/
def sortCallsDesc (l : List CallEntry) : List CallEntry :=
  List.insertionSort newerFirst l

/-- The full sorted result array built by fetchCalls from the fetched
documents and users collection. -/
def sortedEntries (docs : List CallDoc) (emails : List (String × String)) :
    List CallEntry :=
  sortCallsDesc (docs.map (buildEntry emails))

/-- Browser state: the exposed window and the hasMore flag,
CallHistory.tsx lines 41-44. -/
structure CallHistoryState where
  calls : List CallEntry
  hasMore : Bool
deriving DecidableEq

/-- Network reads issued by fetchCalls: the collection-group getDocs and
one users/uid getDoc per call document with an owner. -/
inductive NetEvent
  | fetchAllCalls
  | fetchUserDoc (uid : String)
deriving DecidableEq

/-- The per-document email lookups issued during entry construction. -/
def emailEvents (docs : List CallDoc) : List NetEvent :=
  docs.filterMap (fun d => d.ownerUid.map NetEvent.fetchUserDoc)

/-- fetchCalls of CallHistory.tsx lines 49-128: fetches every call
document, denormalizes emails, sorts newest first, and exposes the first
CALLS_PER_PAGE entries on the initial load or calls.length plus
CALLS_PER_PAGE entries on a load-more run.  Returns the new state and
the network reads issued by this run. -/
def fetchCalls (docs : List CallDoc) (emails : List (String × String))
    (isInitial : Bool) (s : CallHistoryState) :
    CallHistoryState × List NetEvent :=
  let entries := docs.map (buildEntry emails)
  let sorted := sortCallsDesc entries
  let total := sorted.length
  let count := if isInitial then CALLS_PER_PAGE else s.calls.length + CALLS_PER_PAGE
  let paginated := sorted.take count
  ({ calls := paginated, hasMore := decide (count < total) },
   NetEvent.fetchAllCalls :: emailEvents docs)

/-- handleLoadMore of CallHistory.tsx lines 134-138: when more remain
(and no load-more run is in flight, which between completed runs is
always the case) it re-invokes fetchCalls with isInitial false. -/
def handleLoadMore (docs : List CallDoc) (emails : List (String × String))
    (s : CallHistoryState) : CallHistoryState × List NetEvent :=
  if s.hasMore then fetchCalls docs emails false s else (s, [])

/-- Sample administrator record used to instantiate the theorems. -/
def sampleAdmin : AdminRecord :=
  { name := "Alice"
    email := "alice@example.com"
    aiPreferences := none
    storyPreferences := none
    updatedAt := 0 }

/-- Sample user mirror with two agents. -/
def sampleUserA : UserRecord :=
  { uid := "u1"
    agentIds := some ["agentA", "agentB"]
    aiPreferences := none
    storyPreferences := none
    updatedAt := 0 }

/-- Sample user mirror with an explicitly empty agent list. -/
def sampleUserB : UserRecord :=
  { uid := "u2"
    agentIds := some []
    aiPreferences := none
    storyPreferences := none
    updatedAt := 0 }

/-- Sample user mirror with the agentIds field absent. -/
def sampleUserC : UserRecord :=
  { uid := "u3"
    agentIds := none
    aiPreferences := none
    storyPreferences := none
    updatedAt := 0 }

/-- Sample store with three user mirrors. -/
def sampleStore : Store :=
  { admin := sampleAdmin
    users := [sampleUserA, sampleUserB, sampleUserC] }

/-- Sample store with no user mirrors. -/
def emptyStore : Store :=
  { admin := sampleAdmin, users := [] }

/-- Environment in which only the remote call for agentB fails. -/
def sampleEnv : Env :=
  { adminWriteFails := false
    enumerateFails := false
    agentCallFails := fun a => a == "agentB"
    batchCommitFails := false }

/-- Environment in which the admin record write fails. -/
def adminFailEnv : Env :=
  { adminWriteFails := true
    enumerateFails := false
    agentCallFails := fun _ => false
    batchCommitFails := false }

/-- Environment in which only the batch commit fails. -/
def batchFailEnv : Env :=
  { adminWriteFails := false
    enumerateFails := false
    agentCallFails := fun _ => false
    batchCommitFails := true }

/-- Sample story preference block. -/
def sampleStoryPrefs : StoryPrefs :=
  { narrativeStyle := NarrativeStyle.firstPerson
    lengthPreference := LengthPreference.longer
    detailRichness := DetailRichness.more }

/-- Twenty-one call documents, enough for two pagination windows. -/
def docs21 : List CallDoc :=
  (List.range 21).map (fun i =>
    { id := toString i
      callIdField := none
      ownerUid := none
      lastUpdated := i
      creationTime := i })

/-- Initial browser state before the first fetch, CallHistory.tsx
lines 41-44. -/
def initialCallState : CallHistoryState :=
  { calls := [], hasMore := true }

theorem mem_fanOut_events (env : Env) (vid : String) (u : UserRecord)
    (a : String) :
    Event.agentCall a vid ∈ (fanOutUser env vid u).2 ↔
      ∃ ids, u.agentIds = some ids ∧ a ∈ ids := by
  cases h : u.agentIds with
  | none => simp [fanOutUser, h]
  | some ids => simp [fanOutUser, h]

theorem mem_fanOut_failed (env : Env) (vid : String) (u : UserRecord)
    (a : String) :
    a ∈ (fanOutUser env vid u).1 ↔
      (env.agentCallFails a = true ∧ ∃ ids, u.agentIds = some ids ∧ a ∈ ids) := by
  cases h : u.agentIds with
  | none => simp [fanOutUser, h]
  | some ids =>
      simp only [fanOutUser, h, List.mem_filter, Option.some.injEq]
      constructor
      · rintro ⟨hm, hf⟩
        exact ⟨hf, ids, rfl, hm⟩
      · rintro ⟨hf, ids2, hids, hm⟩
        cases hids
        exact ⟨hm, hf⟩

theorem mem_updateRetellAgents_events (env : Env) (vid : String)
    (users : List UserRecord) (a : String) :
    Event.agentCall a vid ∈ (updateRetellAgents env vid users).2 ↔
      ∃ u, u ∈ users ∧ ∃ ids, u.agentIds = some ids ∧ a ∈ ids := by
  induction users with
  | nil => simp [updateRetellAgents]
  | cons u rest ih =>
      simp [updateRetellAgents, mem_fanOut_events, ih, List.mem_cons,
        exists_eq_or_imp]

theorem mem_updateRetellAgents_failed (env : Env) (vid : String)
    (users : List UserRecord) (a : String) :
    a ∈ (updateRetellAgents env vid users).1 ↔
      (env.agentCallFails a = true ∧
        ∃ u, u ∈ users ∧ ∃ ids, u.agentIds = some ids ∧ a ∈ ids) := by
  induction users with
  | nil => simp [updateRetellAgents]
  | cons u rest ih =>
      simp [updateRetellAgents, mem_fanOut_failed, ih, List.mem_cons,
        exists_eq_or_imp, and_or_left]

/-- C1: if some remote-provider fan-out calls fail while the admin write
succeeded (and the batch commit itself does not fail on its own), every
fan-out call is still attempted, the failed agent ids are exactly the
collected failure list, the batch write over all enumerated user records
still executes, and the operator sees the success toast, never a hard
failure. -/
theorem broadcastPartialFailure (env : Env) (store : Store) (v : Voice)
    (cs : ConversationStyle) (fui : FollowUpIntensity) (now : Nat)
    (h1 : env.adminWriteFails = false) (h2 : env.enumerateFails = false)
    (h3 : env.batchCommitFails = false) :
    (∀ u, u ∈ store.users → ∀ ids, u.agentIds = some ids → ∀ a, a ∈ ids →
        Event.agentCall a v.voice_id ∈
          (handleSaveChanges env store v cs fui now).trace) ∧
    (∀ a, a ∈ (handleSaveChanges env store v cs fui now).failedAgentIds ↔
        (env.agentCallFails a = true ∧
          ∃ u, u ∈ store.users ∧ ∃ ids, u.agentIds = some ids ∧ a ∈ ids)) ∧
    Event.batchWrite store.users.length ∈
      (handleSaveChanges env store v cs fui now).trace ∧
    (handleSaveChanges env store v cs fui now).notice =
      Notice.success aiSuccessMsg := by
  refine ⟨?_, ?_, ?_, ?_⟩
  · intro u hu ids hids a ha
    simp [handleSaveChanges, h1, h2, h3, mem_updateRetellAgents_events]
    exact ⟨u, hu, ids, hids, ha⟩
  · intro a
    simp [handleSaveChanges, h1, h2, h3, mem_updateRetellAgents_failed]
  · simp [handleSaveChanges, h1, h2, h3]
  · simp [handleSaveChanges, h1, h2, h3]

theorem broadcastPartialFailure_witness :
    Event.agentCall "agentA" DEFAULT_VOICE.voice_id ∈
      (handleSaveChanges sampleEnv sampleStore DEFAULT_VOICE
        ConversationStyle.casual FollowUpIntensity.more 5).trace ∧
    "agentB" ∈ (handleSaveChanges sampleEnv sampleStore DEFAULT_VOICE
        ConversationStyle.casual FollowUpIntensity.more 5).failedAgentIds ∧
    Event.batchWrite sampleStore.users.length ∈
      (handleSaveChanges sampleEnv sampleStore DEFAULT_VOICE
        ConversationStyle.casual FollowUpIntensity.more 5).trace ∧
    (handleSaveChanges sampleEnv sampleStore DEFAULT_VOICE
        ConversationStyle.casual FollowUpIntensity.more 5).notice =
      Notice.success aiSuccessMsg := by
  have h := broadcastPartialFailure sampleEnv sampleStore DEFAULT_VOICE
    ConversationStyle.casual FollowUpIntensity.more 5 rfl rfl rfl
  refine ⟨?_, ?_, h.2.2.1, h.2.2.2⟩
  · exact h.1 sampleUserA (by decide) ["agentA", "agentB"] rfl "agentA" (by decide)
  · exact (h.2.1 "agentB").mpr
      ⟨by decide, sampleUserA, by decide, ["agentA", "agentB"], rfl, by decide⟩

/-- C2: in every execution of either save flow the admin-record write is
the first operation of the trace, and whenever the batch write appears in
the trace (whether its commit succeeds or fails) the admin record already
holds the newly submitted preference value, so a committed batch with a
stale admin record is never observed. -/
theorem adminWritePrecedesBatch (env : Env) (store : Store) (v : Voice)
    (cs : ConversationStyle) (fui : FollowUpIntensity) (now : Nat)
    (p : StoryPrefs) (now2 : Nat) :
    (handleSaveChanges env store v cs fui now).trace.head? =
      some Event.adminWrite ∧
    (∀ n, Event.batchWrite n ∈ (handleSaveChanges env store v cs fui now).trace →
      (handleSaveChanges env store v cs fui now).store.admin.aiPreferences =
        some { voice := v, followUpIntensity := fui, conversationStyle := cs }) ∧
    (storySaveChanges env store p now2).trace.head? = some Event.adminWrite ∧
    (∀ n, Event.batchWrite n ∈ (storySaveChanges env store p now2).trace →
      (storySaveChanges env store p now2).store.admin.storyPreferences =
        some p) := by
  cases hA : env.adminWriteFails <;>
    cases hE : env.enumerateFails <;>
      cases hB : env.batchCommitFails <;>
        cases hU : store.users <;>
          simp [handleSaveChanges, storySaveChanges, hA, hE, hB, hU]

theorem adminWritePrecedesBatch_witness :
    (handleSaveChanges batchFailEnv sampleStore DEFAULT_VOICE
        ConversationStyle.balanced FollowUpIntensity.balanced 7).store.admin.aiPreferences =
      some { voice := DEFAULT_VOICE
             followUpIntensity := FollowUpIntensity.balanced
             conversationStyle := ConversationStyle.balanced } := by
  have h := adminWritePrecedesBatch batchFailEnv sampleStore DEFAULT_VOICE
    ConversationStyle.balanced FollowUpIntensity.balanced 7 sampleStoryPrefs 7
  exact h.2.1 sampleStore.users.length (by decide)

/-- C3: if the write to the admin record fails, both save flows abort
immediately: the trace is just the attempted admin write (no user
enumeration, no remote call, no batch write), the store is unchanged, and
the operator sees the save-failure toast. -/
theorem adminWriteFailureAborts (env : Env) (store : Store) (v : Voice)
    (cs : ConversationStyle) (fui : FollowUpIntensity) (now : Nat)
    (p : StoryPrefs) (now2 : Nat) (h : env.adminWriteFails = true) :
    (handleSaveChanges env store v cs fui now).trace = [Event.adminWrite] ∧
    (handleSaveChanges env store v cs fui now).store = store ∧
    (handleSaveChanges env store v cs fui now).notice =
      Notice.failure aiErrorMsg ∧
    Event.enumerateUsers ∉ (handleSaveChanges env store v cs fui now).trace ∧
    (∀ a vid, Event.agentCall a vid ∉
      (handleSaveChanges env store v cs fui now).trace) ∧
    (∀ n, Event.batchWrite n ∉
      (handleSaveChanges env store v cs fui now).trace) ∧
    (storySaveChanges env store p now2).trace = [Event.adminWrite] ∧
    (storySaveChanges env store p now2).store = store ∧
    (storySaveChanges env store p now2).notice =
      Notice.failure storyErrorMsg := by
  simp [handleSaveChanges, storySaveChanges, h]

theorem adminWriteFailureAborts_witness :
    (handleSaveChanges adminFailEnv sampleStore DEFAULT_VOICE
        ConversationStyle.casual FollowUpIntensity.fewer 3).store = sampleStore ∧
    (handleSaveChanges adminFailEnv sampleStore DEFAULT_VOICE
        ConversationStyle.casual FollowUpIntensity.fewer 3).notice =
      Notice.failure aiErrorMsg ∧
    (storySaveChanges adminFailEnv sampleStore sampleStoryPrefs 3).store =
      sampleStore := by
  have h := adminWriteFailureAborts adminFailEnv sampleStore DEFAULT_VOICE
    ConversationStyle.casual FollowUpIntensity.fewer 3 sampleStoryPrefs 3 rfl
  exact ⟨h.2.1, h.2.2.1, h.2.2.2.2.2.2.2.1⟩

/-- C6: a user-mirror record whose agentIds list is absent or empty
contributes zero remote-provider calls to the fan-out step, yet it is
still an update target of the final batch write — the batch updates its
mirrored preference fields and timestamp like every other record. -/
theorem emptyAgentListZeroCallsStillBatched (env : Env) (store : Store)
    (v : Voice) (cs : ConversationStyle) (fui : FollowUpIntensity)
    (now : Nat) (u : UserRecord) (hu : u ∈ store.users)
    (h : u.agentIds = none ∨ u.agentIds = some []) :
    fanOutUser env v.voice_id u = ([], []) ∧
    (env.adminWriteFails = false → env.enumerateFails = false →
      env.batchCommitFails = false →
      { u with
        aiPreferences :=
          some { voice := v, followUpIntensity := fui, conversationStyle := cs }
        updatedAt := now } ∈
          (handleSaveChanges env store v cs fui now).store.users) := by
  constructor
  · rcases h with h | h <;> simp [fanOutUser, h]
  · intro h1 h2 h3
    simp [handleSaveChanges, h1, h2, h3]
    exact ⟨u, hu, rfl, rfl, rfl⟩

theorem emptyAgentListZeroCallsStillBatched_witness :
    fanOutUser sampleEnv DEFAULT_VOICE.voice_id sampleUserB = ([], []) ∧
    fanOutUser sampleEnv DEFAULT_VOICE.voice_id sampleUserC = ([], []) ∧
    { sampleUserB with
      aiPreferences :=
        some { voice := DEFAULT_VOICE
               followUpIntensity := FollowUpIntensity.balanced
               conversationStyle := ConversationStyle.balanced }
      updatedAt := 9 } ∈
        (handleSaveChanges sampleEnv sampleStore DEFAULT_VOICE
          ConversationStyle.balanced FollowUpIntensity.balanced 9).store.users := by
  have hB := emptyAgentListZeroCallsStillBatched sampleEnv sampleStore
    DEFAULT_VOICE ConversationStyle.balanced FollowUpIntensity.balanced 9
    sampleUserB (by decide) (Or.inr rfl)
  have hC := emptyAgentListZeroCallsStillBatched sampleEnv sampleStore
    DEFAULT_VOICE ConversationStyle.balanced FollowUpIntensity.balanced 9
    sampleUserC (by decide) (Or.inl rfl)
  exact ⟨hB.1, hC.1, hB.2 rfl rfl rfl⟩

/-- C7: saving a fully specified preference value and then re-running the
fetch over the admin record yields exactly the submitted value,
field-for-field — the round trip is the identity on the preference
block, whatever happens to the later enumeration and batch steps. -/
theorem savedPrefsRoundTrip (env : Env) (store : Store) (v : Voice)
    (cs : ConversationStyle) (fui : FollowUpIntensity) (now : Nat)
    (h1 : env.adminWriteFails = false) :
    fetchAIPrefs (handleSaveChanges env store v cs fui now).store.admin =
      { voice := v, followUpIntensity := fui, conversationStyle := cs } := by
  cases hE : env.enumerateFails <;>
    cases hB : env.batchCommitFails <;>
      cases hU : store.users <;>
        simp [handleSaveChanges, fetchAIPrefs, h1, hE, hB, hU]

theorem savedPrefsRoundTrip_witness :
    fetchAIPrefs (handleSaveChanges sampleEnv sampleStore DEFAULT_VOICE
        ConversationStyle.reflective FollowUpIntensity.more 4).store.admin =
      { voice := DEFAULT_VOICE
        followUpIntensity := FollowUpIntensity.more
        conversationStyle := ConversationStyle.reflective } :=
  savedPrefsRoundTrip sampleEnv sampleStore DEFAULT_VOICE
    ConversationStyle.reflective FollowUpIntensity.more 4 rfl

/-- C8: with an empty user-mirror set both save flows still succeed
overall — the empty batch commits trivially, no remote call is issued —
and the new value is committed to the admin record. -/
theorem emptyMirrorSetStillSucceeds (env : Env) (store : Store) (v : Voice)
    (cs : ConversationStyle) (fui : FollowUpIntensity) (now : Nat)
    (p : StoryPrefs) (now2 : Nat) (h1 : env.adminWriteFails = false)
    (h2 : env.enumerateFails = false) (hU : store.users = []) :
    (handleSaveChanges env store v cs fui now).notice =
      Notice.success aiSuccessMsg ∧
    (handleSaveChanges env store v cs fui now).store.admin.aiPreferences =
      some { voice := v, followUpIntensity := fui, conversationStyle := cs } ∧
    (∀ a vid, Event.agentCall a vid ∉
      (handleSaveChanges env store v cs fui now).trace) ∧
    (storySaveChanges env store p now2).notice =
      Notice.success storySuccessMsg ∧
    (storySaveChanges env store p now2).store.admin.storyPreferences =
      some p := by
  simp [handleSaveChanges, storySaveChanges, h1, h2, hU, updateRetellAgents]

theorem emptyMirrorSetStillSucceeds_witness :
    (handleSaveChanges batchFailEnv emptyStore DEFAULT_VOICE
        ConversationStyle.casual FollowUpIntensity.fewer 2).notice =
      Notice.success aiSuccessMsg ∧
    (storySaveChanges batchFailEnv emptyStore sampleStoryPrefs 2).notice =
      Notice.success storySuccessMsg := by
  have h := emptyMirrorSetStillSucceeds batchFailEnv emptyStore DEFAULT_VOICE
    ConversationStyle.casual FollowUpIntensity.fewer 2 sampleStoryPrefs 2
    rfl rfl rfl
  exact ⟨h.1, h.2.2.2.1⟩

theorem lookup_errorMessages_ne_empty (c t : String)
    (h : errorMessages.lookup c = some t) : t ≠ "" := by
  have hm : (c, t) ∈ errorMessages := by
    rcases List.lookup_eq_some_iff.mp h with ⟨l1, l2, heq, _⟩
    rw [heq]
    exact List.mem_append_right _ (List.mem_cons_self _ _)
  simp only [errorMessages, List.mem_cons, List.not_mem_nil, or_false,
    Prod.mk.injEq] at hm
  rcases hm with ⟨_, rfl⟩ | ⟨_, rfl⟩ | ⟨_, rfl⟩ | ⟨_, rfl⟩ | ⟨_, rfl⟩ |
    ⟨_, rfl⟩ | ⟨_, rfl⟩ | ⟨_, rfl⟩ | ⟨_, rfl⟩ <;> decide

/-- C9 counterexample: an authentication failure whose code is not a key
of the static table and whose own message is empty surfaces the fixed
generic fallback text, not the error message, so the claim as stated
fails at this input. -/
theorem authErrorUnmappedEmptyMessage_cex :
    errorMessages.lookup "auth/unknown-code" = none ∧
    (AuthFailure.mk (some "auth/unknown-code") "").message = "" ∧
    handleAuthError (AuthFailure.mk (some "auth/unknown-code") "") =
      "An error occurred during sign in. Please try again." ∧
    handleAuthError (AuthFailure.mk (some "auth/unknown-code") "") ≠
      (AuthFailure.mk (some "auth/unknown-code") "").message := by
  decide

/-- C9 amended: a failure whose code is in the static table surfaces
exactly the table text for that code; a failure whose code is not in the
table surfaces the error message itself when that message is non-empty,
and the fixed generic text when it is empty; in all cases a non-empty
error message is surfaced. -/
theorem authErrorSurfacing (e : AuthFailure) :
    (∀ c t, e.code = some c → errorMessages.lookup c = some t →
      handleAuthError e = t) ∧
    (mappedText e = none → e.message ≠ "" → handleAuthError e = e.message) ∧
    (mappedText e = none → e.message = "" →
      handleAuthError e = "An error occurred during sign in. Please try again.") ∧
    handleAuthError e ≠ "" := by
  refine ⟨?_, ?_, ?_, ?_⟩
  · intro c t hc ht
    have hne := lookup_errorMessages_ne_empty c t ht
    simp [handleAuthError, mappedText, hc, ht, jsOr, hne]
  · intro hm hne
    simp [handleAuthError, hm, jsOr, hne]
  · intro hm he
    simp [handleAuthError, hm, he, jsOr]
  · by_cases h0 :
      (match mappedText e with
        | some m => m
        | none => e.message) = ""
    · simp [handleAuthError, jsOr, h0]
    · simp [handleAuthError, jsOr, h0]

theorem authErrorSurfacing_witness :
    handleAuthError (AuthFailure.mk (some "auth/user-not-found") "raw") =
      "No admin account found with this email." ∧
    handleAuthError (AuthFailure.mk none "socket hang up") =
      "socket hang up" := by
  refine ⟨?_, ?_⟩
  · exact (authErrorSurfacing (AuthFailure.mk (some "auth/user-not-found") "raw")).1
      "auth/user-not-found" "No admin account found with this email." rfl (by decide)
  · exact (authErrorSurfacing (AuthFailure.mk none "socket hang up")).2.1
      rfl (by decide)

/-- C10: a successfully authenticated user with no admins record is never
granted a protected view — the sign-in handler signs such a user out and
does not navigate; the app shell admin check only yields a
protected-rendering state when the admins record of the signed-in user
exists; and outside the protected state every path resolves to the
sign-in or sign-up form only. -/
theorem adminGateProtectsViews :
    (∀ adminDocs uid, uid ∉ adminDocs →
      (signInSubmit adminDocs uid).currentUser = none ∧
      (signInSubmit adminDocs uid).navigatedTo = none) ∧
    (∀ f s, rendersProtected (checkAdminStatus f s) = true →
      ∃ uid a, s.user = some uid ∧ f uid = some a) ∧
    (∀ s path, rendersProtected s = false →
      resolveRoute s path = View.signInView ∨
        resolveRoute s path = View.signUpView) := by
  refine ⟨?_, ?_, ?_⟩
  · intro adminDocs uid h
    simp [signInSubmit, h]
  · intro f s h
    cases hs : s.user with
    | none => simp [checkAdminStatus, hs, rendersProtected] at h
    | some uid =>
        cases hf : f uid with
        | none => simp [checkAdminStatus, hs, hf, rendersProtected] at h
        | some a => exact ⟨uid, a, rfl, hf⟩
  · intro s path h
    simp only [resolveRoute, h]
    split_ifs <;> simp_all

theorem adminGateProtectsViews_witness :
    (signInSubmit ["admin1"] "intruder").currentUser = none ∧
    (signInSubmit ["admin1"] "intruder").navigatedTo = none ∧
    (resolveRoute (AppState.mk none none) "/call-history" = View.signInView ∨
      resolveRoute (AppState.mk none none) "/call-history" = View.signUpView) := by
  have h := adminGateProtectsViews
  exact ⟨(h.1 ["admin1"] "intruder" (by decide)).1,
         (h.1 ["admin1"] "intruder" (by decide)).2,
         h.2.2 (AppState.mk none none) "/call-history" (by decide)⟩

theorem sortedEntries_length (docs : List CallDoc)
    (emails : List (String × String)) :
    (sortedEntries docs emails).length = docs.length := by
  simp [sortedEntries, sortCallsDesc]

/-- C4 counterexample: with twenty-one call documents the initial load
leaves hasMore set, and activating load more issues the collection-group
read again — the network event list of the load-more run is non-empty
and contains the fetch-all read, contradicting the claim that no
additional network fetch occurs after the initial load. -/
theorem loadMoreRefetches_cex :
    (fetchCalls docs21 [] true initialCallState).1.hasMore = true ∧
    NetEvent.fetchAllCalls ∈
      (handleLoadMore docs21 [] (fetchCalls docs21 [] true initialCallState).1).2 ∧
    (handleLoadMore docs21 [] (fetchCalls docs21 [] true initialCallState).1).2 ≠
      ([] : List NetEvent) := by
  decide

/-- C4 amended: activating load more when more items remain re-invokes
the full fetch — an additional network read of the call collection does
occur — and the exposed window is then the first previous plus
CALLS_PER_PAGE entries of the re-fetched, re-sorted full result array,
so the window still grows only by re-slicing that sorted array. -/
theorem loadMoreRefetchesAndReslices (docs : List CallDoc)
    (emails : List (String × String)) (s : CallHistoryState)
    (h : s.hasMore = true) :
    NetEvent.fetchAllCalls ∈ (handleLoadMore docs emails s).2 ∧
    (handleLoadMore docs emails s).1.calls =
      (sortedEntries docs emails).take (s.calls.length + CALLS_PER_PAGE) := by
  simp [handleLoadMore, h, fetchCalls, sortedEntries]

theorem loadMoreRefetchesAndReslices_witness :
    NetEvent.fetchAllCalls ∈
      (handleLoadMore docs21 []
        (fetchCalls docs21 [] true initialCallState).1).2 ∧
    (handleLoadMore docs21 []
        (fetchCalls docs21 [] true initialCallState).1).1.calls =
      (sortedEntries docs21 []).take
        ((fetchCalls docs21 [] true initialCallState).1.calls.length +
          CALLS_PER_PAGE) :=
  loadMoreRefetchesAndReslices docs21 []
    (fetchCalls docs21 [] true initialCallState).1 (by decide)

/-- C5: pagination of the call-history browser — the initial load
exposes the first CALLS_PER_PAGE entries of the sorted result array,
hence min(P, S) records; from any exposed window made of the first c
entries of the sorted array with more remaining, load more exposes exactly
min(previous + P, S) records, the new window extends the old one (so no
item is dropped, duplicated or reordered across growth), and the hasMore
flag stays consistent; every window of the sorted array is descending by
last-update time and, when the entries are distinct, duplicate-free. -/
theorem callHistoryPagination (docs : List CallDoc)
    (emails : List (String × String)) :
    ((fetchCalls docs emails true initialCallState).1.calls =
        (sortedEntries docs emails).take CALLS_PER_PAGE ∧
      (fetchCalls docs emails true initialCallState).1.calls.length =
        min CALLS_PER_PAGE docs.length ∧
      (fetchCalls docs emails true initialCallState).1.hasMore =
        decide (CALLS_PER_PAGE < docs.length)) ∧
    (∀ s c, s.calls = (sortedEntries docs emails).take c →
      s.hasMore = true → c < docs.length →
        (handleLoadMore docs emails s).1.calls =
          (sortedEntries docs emails).take (c + CALLS_PER_PAGE) ∧
        (handleLoadMore docs emails s).1.calls.length =
          min (s.calls.length + CALLS_PER_PAGE) docs.length ∧
        (∃ t, (handleLoadMore docs emails s).1.calls = s.calls ++ t) ∧
        (handleLoadMore docs emails s).1.hasMore =
          decide (c + CALLS_PER_PAGE < docs.length)) ∧
    (∀ n, List.Sorted newerFirst ((sortedEntries docs emails).take n)) ∧
    ((docs.map (buildEntry emails)).Nodup →
      ∀ n, ((sortedEntries docs emails).take n).Nodup) := by
  have hlen : (sortedEntries docs emails).length = docs.length :=
    sortedEntries_length docs emails
  refine ⟨⟨?_, ?_, ?_⟩, ?_, ?_, ?_⟩
  · simp [fetchCalls, initialCallState, sortedEntries]
  · simp [fetchCalls, initialCallState, sortedEntries, sortCallsDesc]
  · simp [fetchCalls, initialCallState, sortCallsDesc]
  · intro s c hcalls hmore hc
    have hslen : s.calls.length = c := by
      rw [hcalls, List.length_take, hlen]
      exact Nat.min_eq_left (Nat.le_of_lt hc)
    refine ⟨?_, ?_, ?_, ?_⟩
    · simp [handleLoadMore, hmore, fetchCalls, sortedEntries, hslen]
    · simp [handleLoadMore, hmore, fetchCalls, sortedEntries, hslen,
        List.length_take, sortCallsDesc]
    · refine ⟨((sortedEntries docs emails).drop c).take CALLS_PER_PAGE, ?_⟩
      have : (handleLoadMore docs emails s).1.calls =
          (sortedEntries docs emails).take (c + CALLS_PER_PAGE) := by
        simp [handleLoadMore, hmore, fetchCalls, sortedEntries, hslen]
      rw [this, hcalls, List.take_add]
    · simp only [handleLoadMore, hmore, if_pos, fetchCalls, hslen]
      rw [if_neg (by simp)]
      simp [sortedEntries, sortCallsDesc]
  · intro n
    exact List.Pairwise.sublist (List.take_sublist n _)
      (List.sorted_insertionSort newerFirst (docs.map (buildEntry emails)))
  · intro hnd n
    have hsorted : (sortedEntries docs emails).Nodup :=
      ((List.perm_insertionSort newerFirst
        (docs.map (buildEntry emails))).nodup_iff).mpr hnd
    exact (List.take_sublist n _).nodup hsorted

theorem callHistoryPagination_witness :
    (handleLoadMore docs21 []
        (fetchCalls docs21 [] true initialCallState).1).1.calls.length =
      min ((fetchCalls docs21 [] true initialCallState).1.calls.length +
        CALLS_PER_PAGE) docs21.length ∧
    (∃ t, (handleLoadMore docs21 []
        (fetchCalls docs21 [] true initialCallState).1).1.calls =
      (fetchCalls docs21 [] true initialCallState).1.calls ++ t) := by
  have h := (callHistoryPagination docs21 []).2.1
    (fetchCalls docs21 [] true initialCallState).1 CALLS_PER_PAGE
    (by decide) (by decide) (by decide)
  exact ⟨h.2.1, h.2.2.1⟩

end AdminDash
